import Mathlib

/-
Verification of the RootInteraction state coordinator, the ColumnTextClick
handler and the handleLayoutHook helper of the S2 interactive-spreadsheet
repository.  The mutable class state becomes an explicit record `RIState`;
side effects (event emission, redraws, per-cell updates, DOM listener
registration) are recorded in an append-only effects log.
-/

namespace S2

/-- Cell kinds (common/constant CellType). -/
inductive CellType where
  | dataCell
  | rowCell
  | colCell
  | cornerCell
  | seriesNumberCell
  | mergedCell
deriving DecidableEq

/-- Interaction state names (common/constant InteractionStateName). -/
inductive InteractionStateName where
  | selected
  | allSelected
  | unselected
  | hover
  | hoverFocus
  | rowCellBrushSelected
  | colCellBrushSelected
  | dataCellBrushSelected
deriving DecidableEq

/-- Intercept kinds (common/constant InterceptType). -/
inductive InterceptType where
  | hover
  | click
  | brushSelection
  | rowCellBrushSelection
  | colCellBrushSelection
  | dataCellBrushSelection
  | multiSelection
  | resize
deriving DecidableEq

/-- A layout node / view meta.  `x` and `y` may be undefined (isNil checks in
the source), `belongsCellId` models the optional `belongsCell` back pointer
(identified by its meta id). -/
structure Node where
  id : String
  x : Option Int := none
  y : Option Int := none
  colIndex : Int := -1
  rowIndex : Int := -1
  belongsCellId : Option String := none
deriving DecidableEq

/-- An S2 cell: its meta (possibly undefined, the source guards with
`!meta`) and its cell type. -/
structure Cell where
  meta : Option Node := none
  cellType : CellType := CellType.dataCell
deriving DecidableEq

/-- The id of the meta of a cell, when the meta is defined
(`cell.getMeta()?.id`). -/
def metaId (c : Cell) : Option String := c.meta.map (fun m => m.id)

/-- The CellMeta records stored in the interaction state
(common/interface CellMeta). -/
structure CellMeta where
  id : String
  colIndex : Int := -1
  rowIndex : Int := -1
  type : CellType := CellType.dataCell
deriving DecidableEq

/-- Modelled from the spec: the `onUpdateCells` callback of an interaction
state (its source is not under src/).  The callback receives the interaction
and the default updater; it is modelled as the sequence of update actions it
performs: invoking the default update of all data cells, or updating
specific cells by id. -/
inductive UpdateCellsAction where
  | callDefault
  | updateByIds (ids : List String)
deriving DecidableEq

/-- The interaction state info stored under INTERACTION_STATE_INFO_KEY.
Every field is optional, matching the TS interface. -/
structure InteractionStateInfo where
  stateName : Option InteractionStateName := none
  cells : Option (List CellMeta) := none
  nodes : Option (List Node) := none
  interactedCells : Option (List Cell) := none
  force : Option Bool := none
  onUpdateCells : Option (List UpdateCellsAction) := none
deriving DecidableEq

/-- The `defaultState` field of RootInteraction:
`{ cells: [], force: false }`. -/
def defaultState : InteractionStateInfo := { cells := some [], force := some false }

/-- Brush-selection options object with optional per-area flags. -/
structure BrushSelectionOptions where
  dataCell : Option Bool := none
  rowCell : Option Bool := none
  colCell : Option Bool := none
deriving DecidableEq

/-- Normalized brush-selection info returned by getBrushSelectionInfo. -/
structure BrushSelectionInfo where
  dataCellBrushSelection : Bool
  rowCellBrushSelection : Bool
  colCellBrushSelection : Bool
deriving DecidableEq

/-- Normalized brush-selection flags returned by getBrushSelection. -/
structure BrushSelectionFlags where
  dataCell : Bool
  rowCell : Bool
  colCell : Bool
deriving DecidableEq

/-- Cell-highlight options object with optional flags (the input side of
getSelectedCellHighlight / getHoverHighlight). -/
structure CellHighlightOptions where
  rowHeader : Option Bool := none
  colHeader : Option Bool := none
  currentRow : Option Bool := none
  currentCol : Option Bool := none
deriving DecidableEq

/-- Normalized cell-highlight flags (the output side of
getSelectedCellHighlight / getHoverHighlight). -/
structure CellHighlightFlags where
  rowHeader : Bool
  colHeader : Bool
  currentRow : Bool
  currentCol : Bool
deriving DecidableEq

/-- The `options.interaction` configuration the getters read.  A
`boolean | Options` union field is an optional sum. -/
structure InteractionOptions where
  resize : Option Bool := none
  brushSelection : Option (Sum Bool BrushSelectionOptions) := none
  multiSelection : Option Bool := none
  rangeSelection : Option Bool := none
  selectedCellMove : Option Bool := none
  selectedCellHighlight : Option (Sum Bool CellHighlightOptions) := none
  hoverHighlight : Option (Sum Bool CellHighlightOptions) := none
  hoverAfterScroll : Option Bool := none
  customInteractionKeys : List String := []
deriving DecidableEq

/-- The read-only spreadsheet environment seen by RootInteraction: the facet
cell collections, layout flags, scrollbars and options.  Children nodes of a
cell (facet.getCellChildrenNodes) are an association list keyed by cell id. -/
structure Env where
  allCells : List Cell := []
  dataCells : List Cell := []
  headerCells : List Cell := []
  childrenNodes : List (String × List Node) := []
  isHierarchyTree : Bool := false
  hRowScrollBar : Bool := false
  hScrollBar : Bool := false
  vScrollBar : Bool := false
  scrollX : Int := 0
  scrollY : Int := 0
  rowHeaderScrollX : Int := 0
  isMobile : Bool := false
  interactionOptions : InteractionOptions := {}
deriving DecidableEq

/-- Observable side effects of the interaction layer, recorded in order. -/
inductive Effect where
  | emitGlobalSelected (cellIds : List String)
  | draw
  | hideTooltip
  | clearHoverTimeout
  | updateCell (id : Option String)
  | hideInteractionShape (id : Option String)
  | updateByState (stateName : InteractionStateName) (cellId : String)
  | updateScrollOffset (offsetX offsetY rowHeaderOffsetX : Option Int)
  | clearEventController
  | interactionHandlerReset (key : String)
deriving DecidableEq

/-- A window event-listener reference.  The constructor registers the single
class-property arrow function `onTriggerInteractionsResetEffect`, whose
identity is stable. -/
inductive ListenerRef where
  | triggerInteractionsResetEffect
deriving DecidableEq

/-- The RootInteraction instance state: the spreadsheet store slot for the
interaction state info, the intercept set, the hover timer id, the
registered interaction handlers (by key), the visibilitychange listeners on
`window`, the event controller, and the effect log. -/
structure RIState where
  env : Env := {}
  store : Option InteractionStateInfo := none
  intercepts : List InterceptType := []
  hoverTimer : Option Int := none
  interactions : List String := []
  visibilityListeners : List ListenerRef := []
  eventControllerActive : Bool := false
  effects : List Effect := []
deriving DecidableEq

/-- Append one effect to the log. -/
def addEffect (e : Effect) (s : RIState) : RIState :=
  { s with effects := s.effects ++ [e] }

/-- Append several effects to the log. -/
def addEffects (es : List Effect) (s : RIState) : RIState :=
  { s with effects := s.effects ++ es }

/-- getState: the stored interaction state info, or `defaultState` when the
store holds none. -/
def getState (s : RIState) : InteractionStateInfo :=
  s.store.getD defaultState

/-- setState: store the interaction state info.  Modelled from the spec: the
state-controller setState helper (not under src/) writes the info to the
spreadsheet store under INTERACTION_STATE_INFO_KEY. -/
def setState (info : InteractionStateInfo) (s : RIState) : RIState :=
  { s with store := some info }

/-- resetState: store the default state. -/
def resetState (s : RIState) : RIState :=
  { s with store := some defaultState }

/-- getCurrentStateName. -/
def getCurrentStateName (s : RIState) : Option InteractionStateName :=
  (getState s).stateName

/-- isEqualStateName. -/
def isEqualStateName (n : InteractionStateName) (s : RIState) : Bool :=
  getCurrentStateName s == some n

/-- isStateOf. -/
def isStateOf (n : InteractionStateName) (s : RIState) : Bool :=
  (getState s).stateName == some n

/-- isSelectedState: selected, all-selected or one of the brush-selected
states. -/
def isSelectedState (s : RIState) : Bool :=
  [InteractionStateName.selected,
   InteractionStateName.allSelected,
   InteractionStateName.rowCellBrushSelected,
   InteractionStateName.colCellBrushSelected,
   InteractionStateName.dataCellBrushSelected].any (fun n => isStateOf n s)

/-- isAllSelectedState. -/
def isAllSelectedState (s : RIState) : Bool :=
  isStateOf InteractionStateName.allSelected s

/-- isHoverFocusState. -/
def isHoverFocusState (s : RIState) : Bool :=
  isStateOf InteractionStateName.hoverFocus s

/-- isHoverState. -/
def isHoverState (s : RIState) : Bool :=
  isStateOf InteractionStateName.hover s

/-- getCells: the recorded cell metas, filtered by type when a type list is
given. -/
def getCells (cellType : Option (List CellType)) (s : RIState) : List CellMeta :=
  let cells := (getState s).cells.getD []
  match cellType with
  | none => cells
  | some ts => cells.filter (fun c => ts.contains c.type)

/-- getInteractedCells. -/
def getInteractedCells (s : RIState) : List Cell :=
  (getState s).interactedCells.getD []

/-- setInteractedCells: append the cell to the interacted list and store the
mutated state. -/
def setInteractedCells (c : Cell) (s : RIState) : RIState :=
  let interacted := getInteractedCells s ++ [c]
  let st := getState s
  setState { st with interactedCells := some interacted } s

/-- getActiveCells: resolve each recorded id against the facet cells,
keeping the click order and dropping ids with no instantiated cell. -/
def getActiveCells (s : RIState) : List Cell :=
  ((getCells none s).map (fun m => m.id)).filterMap
    (fun id => s.env.allCells.find? (fun c => metaId c == some id))

/-- The meta ids of the active cells, used as the GLOBAL_SELECTED payload. -/
def activeCellIds (s : RIState) : List String :=
  (getActiveCells s).filterMap metaId

/-- isActiveCell: the cell's meta id occurs among the recorded cells. -/
def isActiveCell (c : Cell) (s : RIState) : Bool :=
  ((getCells none s).find? (fun m => metaId c == some m.id)).isSome

/-- isSelectedCell: selected state and active cell. -/
def isSelectedCell (c : Cell) (s : RIState) : Bool :=
  isSelectedState s && isActiveCell c s

/-- Set-insert for the intercept set (JS Set.add). -/
def setAdd (l : List InterceptType) (t : InterceptType) : List InterceptType :=
  if t ∈ l then l else l ++ [t]

/-- addIntercepts. -/
def addIntercepts (ts : List InterceptType) (s : RIState) : RIState :=
  { s with intercepts := ts.foldl setAdd s.intercepts }

/-- hasIntercepts: true when at least one of the given types is in the
set. -/
def hasIntercepts (ts : List InterceptType) (s : RIState) : Bool :=
  ts.any (fun t => s.intercepts.contains t)

/-- removeIntercepts (JS Set.delete per element). -/
def removeIntercepts (ts : List InterceptType) (s : RIState) : RIState :=
  { s with intercepts := ts.foldl (fun l t => l.filter (fun u => u != t)) s.intercepts }

/-- clearHoverTimer: clearTimeout on the stored timer id; the field itself
is not nulled by the source. -/
def clearHoverTimer (s : RIState) : RIState :=
  addEffect Effect.clearHoverTimeout s

/-- setHoverTimer. -/
def setHoverTimer (t : Int) (s : RIState) : RIState :=
  { s with hoverTimer := some t }

/-- getHoverTimer. -/
def getHoverTimer (s : RIState) : Option Int :=
  s.hoverTimer

/-- updateCells: invoke update() on each given cell. -/
def updateCells (cells : List Cell) (s : RIState) : RIState :=
  addEffects (cells.map (fun c => Effect.updateCell (metaId c))) s

/-- updateAllDataCells. -/
def updateAllDataCells (s : RIState) : RIState :=
  updateCells s.env.dataCells s

/-- draw: render the container. -/
def draw (s : RIState) : RIState :=
  addEffect Effect.draw s

/-- Modelled from the spec: the state-controller clearState helper (not
under src/).  When cells are recorded it hides the interaction shape of
every interacted cell, resets the stored state and reports that something
was cleared. -/
def stateControllerClearState (s : RIState) : RIState × Bool :=
  let matched := !(getCells none s).isEmpty
  if matched then
    let s := addEffects ((getInteractedCells s).map
      (fun c => Effect.hideInteractionShape (metaId c))) s
    (resetState s, true)
  else (s, false)

/-- The clearState method: clear via the state controller and redraw when
something was cleared. -/
def clearState (s : RIState) : RIState :=
  let p := stateControllerClearState s
  if p.2 then draw p.1 else p.1

/-- reset: clear the interaction state, cancel the hover timer, clear all
intercepts and hide the tooltip. -/
def reset (s : RIState) : RIState :=
  let s := clearState s
  let s := clearHoverTimer s
  let s := { s with intercepts := [] }
  addEffect Effect.hideTooltip s

/-- clearStyleIndependent: hide the interaction shape of every data cell,
but only in a selected / hover / all-selected state. -/
def clearStyleIndependent (s : RIState) : RIState :=
  if !isSelectedState s && !isHoverState s && !isAllSelectedState s then s
  else
    addEffects (s.env.dataCells.map (fun c => Effect.hideInteractionShape (metaId c))) s

/-- Run one modelled onUpdateCells action. -/
def runUpdateAction : UpdateCellsAction → RIState → RIState
  | UpdateCellsAction.callDefault, s => updateAllDataCells s
  | UpdateCellsAction.updateByIds ids, s =>
      addEffects (ids.map (fun id => Effect.updateCell (some id))) s

/-- The non-guard path of changeState: clear the all-selected styles when
leaving that state, clear and store the new state, update the cells
(through onUpdateCells when given) and redraw. -/
def changeStateBody (info : InteractionStateInfo) (s : RIState) : RIState :=
  let s := if getCurrentStateName s == some InteractionStateName.allSelected
           then clearStyleIndependent s else s
  let s := clearState s
  let s := setState info s
  let s := match info.onUpdateCells with
           | none => updateAllDataCells s
           | some actions => actions.foldl (fun acc a => runUpdateAction a acc) s
  draw s

/-- changeState with explicit recursion fuel.  The source recurses once
(with UNSELECTED) when a SELECTED state arrives with no cells and force is
set; fuel 2 is enough, as proved below. -/
def changeStateGo : Nat → InteractionStateInfo → RIState → RIState
  | 0, _, s => s
  | Nat.succ n, info, s =>
      let cells := info.cells.getD []
      if cells.isEmpty && (info.stateName == some InteractionStateName.selected) then
        if info.force == some true then
          changeStateGo n
            { cells := some [], stateName := some InteractionStateName.unselected } s
        else s
      else changeStateBody info s

/-- changeState. -/
def changeState (info : InteractionStateInfo) (s : RIState) : RIState :=
  changeStateGo 2 info s

/-- selectAll: enter the all-selected state, intercept hover, and update
every facet cell. -/
def selectAll (s : RIState) : RIState :=
  let s := changeState { stateName := some InteractionStateName.allSelected } s
  let s := addIntercepts [InterceptType.hover] s
  updateCells s.env.allCells s

/-- highlightNodes: updateByState(SELECTED) on the belonging cell of every
node that has one. -/
def highlightNodes (nodes : List Node) (s : RIState) : RIState :=
  addEffects (nodes.filterMap (fun n =>
    n.belongsCellId.map (fun id =>
      Effect.updateByState InteractionStateName.selected id))) s

/-- Modelled from the spec: the select-event getCellMeta helper (not under
src/) builds the CellMeta record of a cell from its meta and its cell type.
It is only invoked on cells whose meta was validated. -/
def getCellMeta (c : Cell) : CellMeta :=
  match c.meta with
  | some m => { id := m.id, colIndex := m.colIndex, rowIndex := m.rowIndex, type := c.cellType }
  | none => { id := "", type := c.cellType }

/-- Modelled from the spec: facet.getHeaderCells(ids) (not under src/)
returns the header cells whose meta id is among the given ids. -/
def getHeaderCells (ids : List String) (s : RIState) : List Cell :=
  s.env.headerCells.filter (fun c =>
    match metaId c with
    | some id => ids.contains id
    | none => false)

/-- Modelled from the spec: facet.getCellChildrenNodes(cell) (not under
src/), looked up from the environment by the cell's meta id. -/
def getCellChildrenNodes (c : Cell) (s : RIState) : List Node :=
  (((metaId c).bind (fun id =>
    (s.env.childrenNodes.find? (fun p => p.1 == id)).map (fun p => p.2))).getD [])

/-- JS String.prototype.includes: substring occurrence, true for the empty
pattern. -/
def strIncludes (s pat : String) : Bool :=
  if pat = "" then true else decide (2 ≤ (s.splitOn pat).length)

/-- A scroll offset configuration: each offset optionally overrides the
current scroll position (customMerge skips undefined values). -/
structure ScrollOffsetConfig where
  offsetX : Option Int := none
  offsetY : Option Int := none
  rowHeaderOffsetX : Option Int := none
deriving DecidableEq

/-- scrollTo: merge the given offsets over the current scroll offsets and
update the facet scroll. -/
def scrollTo (cfg : ScrollOffsetConfig) (s : RIState) : RIState :=
  addEffect (Effect.updateScrollOffset
    (cfg.offsetX <|> some s.env.scrollX)
    (cfg.offsetY <|> some s.env.scrollY)
    (cfg.rowHeaderOffsetX <|> some s.env.rowHeaderScrollX)) s

/-- scrollToCellByMeta: no-op without a meta or without any scrollbar. -/
def scrollToCellByMeta (meta : Option Node) (s : RIState) : RIState :=
  match meta with
  | none => s
  | some m =>
    if !s.env.hRowScrollBar && !s.env.hScrollBar && !s.env.vScrollBar then s
    else scrollTo { rowHeaderOffsetX := m.x, offsetX := m.x, offsetY := m.y } s

/-- scrollToCell. -/
def scrollToCell (c : Cell) (s : RIState) : RIState :=
  scrollToCellByMeta c.meta s

/-- Options of changeCell. -/
structure ChangeCellOptions where
  cell : Option Cell := none
  stateName : Option InteractionStateName := none
  isMultiSelection : Option Bool := none
  scrollIntoView : Option Bool := none
deriving DecidableEq

/-- The deselect-to-empty branch of changeCell: reset, then emit
GLOBAL_SELECTED with the (now empty) active cells and return undefined. -/
def resetAndEmit (s1 : RIState) : RIState × Option Bool :=
  let s2 := reset s1
  (addEffect (Effect.emitGlobalSelected (activeCellIds s2)) s2, none)

/-- The selection branch of changeCell: store the new state, update the
matching header cells, highlight the children nodes (tiled mode or column
cells), scroll into view, emit GLOBAL_SELECTED and return true. -/
def finishSelection (stateName : InteractionStateName) (scrollIntoView : Bool) (cell : Cell)
    (meta : Node) (isHierarchyTree isColCell : Bool)
    (selectedCells : List CellMeta) (childrenNodes : List Node) (s1 : RIState) :
    RIState × Option Bool :=
  let nodes := if childrenNodes.isEmpty then [meta] else childrenNodes
  let s2 := changeState
    { cells := some selectedCells, nodes := some nodes, stateName := some stateName } s1
  let selectedCellIds := selectedCells.map (fun m => m.id)
  let s3 := updateCells (getHeaderCells selectedCellIds s2) s2
  let s4 := if !isHierarchyTree || isColCell then highlightNodes childrenNodes s3 else s3
  let s5 := if scrollIntoView then scrollToCell cell s4 else s4
  (addEffect (Effect.emitGlobalSelected (activeCellIds s5)) s5, some true)

/-- changeCell: guard on an empty cell or an invalid meta, intercept hover,
compute the new selection (handling multi-select and deselection), and
either reset-and-emit (when nothing remains selected) or finish the
selection. -/
def changeCell (opts : ChangeCellOptions) (s : RIState) : RIState × Option Bool :=
  let stateName := opts.stateName.getD InteractionStateName.selected
  let scrollIntoView := opts.scrollIntoView.getD true
  match opts.cell with
  | none => (s, none)
  | some cell =>
    match cell.meta with
    | none => (s, none)
    | some meta =>
      if meta.x == none then (s, none)
      else
        let s1 := addIntercepts [InterceptType.hover] s
        let isHierarchyTree := s1.env.isHierarchyTree
        let isColCell := cell.cellType == CellType.colCell
        let lastState := getState s1
        let isSelCell := isSelectedCell cell s1
        let isMulti := opts.isMultiSelection.getD false && isSelectedState s1
        let childrenNodes0 := if isSelCell then [] else getCellChildrenNodes cell s1
        let selectedCells0 := if isSelCell then [] else [getCellMeta cell]
        let selectedCells1 :=
          if isMulti then (lastState.cells.getD []) ++ selectedCells0 else selectedCells0
        let childrenNodes1 :=
          if isMulti then (lastState.nodes.getD []) ++ childrenNodes0 else childrenNodes0
        let selectedCells :=
          if isMulti && isSelCell then selectedCells1.filter (fun m => m.id != meta.id)
          else selectedCells1
        let childrenNodes :=
          if isMulti && isSelCell then
            childrenNodes1.filter (fun n => !(strIncludes n.id meta.id))
          else childrenNodes1
        if selectedCells.isEmpty then resetAndEmit s1
        else finishSelection stateName scrollIntoView cell meta isHierarchyTree isColCell
          selectedCells childrenNodes s1

/-- highlightCell. -/
def highlightCell (c : Cell) (s : RIState) : RIState × Option Bool :=
  changeCell { cell := some c, stateName := some InteractionStateName.hover } s

/-- selectCell. -/
def selectCell (c : Cell) (s : RIState) : RIState × Option Bool :=
  changeCell { cell := some c, stateName := some InteractionStateName.selected } s

/-- getBrushSelectionInfo: a boolean option sets every flag to it;
otherwise each optional field defaults to false. -/
def getBrushSelectionInfo (brushSelection : Option (Sum Bool BrushSelectionOptions)) :
    BrushSelectionInfo :=
  match brushSelection with
  | some (Sum.inl b) =>
      { dataCellBrushSelection := b, rowCellBrushSelection := b, colCellBrushSelection := b }
  | some (Sum.inr o) =>
      { dataCellBrushSelection := o.dataCell.getD false,
        rowCellBrushSelection := o.rowCell.getD false,
        colCellBrushSelection := o.colCell.getD false }
  | none =>
      { dataCellBrushSelection := false, rowCellBrushSelection := false,
        colCellBrushSelection := false }

/-- getSelectedCellHighlight. -/
def getSelectedCellHighlight (s : RIState) : CellHighlightFlags :=
  match s.env.interactionOptions.selectedCellHighlight with
  | some (Sum.inl b) =>
      { rowHeader := b, colHeader := b, currentRow := b, currentCol := b }
  | some (Sum.inr o) =>
      { rowHeader := o.rowHeader.getD false, colHeader := o.colHeader.getD false,
        currentRow := o.currentRow.getD false, currentCol := o.currentCol.getD false }
  | none =>
      { rowHeader := false, colHeader := false, currentRow := false, currentCol := false }

/-- getHoverHighlight. -/
def getHoverHighlight (s : RIState) : CellHighlightFlags :=
  match s.env.interactionOptions.hoverHighlight with
  | some (Sum.inl b) =>
      { rowHeader := b, colHeader := b, currentRow := b, currentCol := b }
  | some (Sum.inr o) =>
      { rowHeader := o.rowHeader.getD false, colHeader := o.colHeader.getD false,
        currentRow := o.currentRow.getD false, currentCol := o.currentCol.getD false }
  | none =>
      { rowHeader := false, colHeader := false, currentRow := false, currentCol := false }

/-- getBrushSelection. -/
def getBrushSelection (s : RIState) : BrushSelectionFlags :=
  match s.env.interactionOptions.brushSelection with
  | some (Sum.inl b) => { dataCell := b, rowCell := b, colCell := b }
  | some (Sum.inr o) =>
      { dataCell := o.dataCell.getD false, rowCell := o.rowCell.getD false,
        colCell := o.colCell.getD false }
  | none => { dataCell := false, rowCell := false, colCell := false }

/-- getDefaultInteractions: each default interaction key with its enable
value; `none` models an absent enable field, and a raw option models the JS
value of `!isMobile() && flag` (undefined stays undefined). -/
def getDefaultInteractions (env : Env) : List (String × Option Bool) :=
  let info := getBrushSelectionInfo env.interactionOptions.brushSelection
  let mob := env.isMobile
  let en := fun (o : Option Bool) => if mob then some false else o
  [("CORNER_CELL_CLICK", none),
   ("DATA_CELL_CLICK", none),
   ("ROW_COLUMN_CLICK", none),
   ("ROW_TEXT_CLICK", none),
   ("MERGED_CELLS_CLICK", none),
   ("HOVER", some (!mob)),
   ("DATA_CELL_BRUSH_SELECTION", some (!mob && info.dataCellBrushSelection)),
   ("ROW_CELL_BRUSH_SELECTION", some (!mob && info.rowCellBrushSelection)),
   ("COL_CELL_BRUSH_SELECTION", some (!mob && info.colCellBrushSelection)),
   ("COL_ROW_RESIZE", en env.interactionOptions.resize),
   ("DATA_CELL_MULTI_SELECTION", en env.interactionOptions.multiSelection),
   ("RANGE_SELECTION", en env.interactionOptions.rangeSelection),
   ("SELECTED_CELL_MOVE", en env.interactionOptions.selectedCellMove)]

/-- Map.set on the interaction key map: keep the position of an existing
key, append a new one. -/
def mapSet (key : String) (l : List String) : List String :=
  if l.contains key then l else l ++ [key]

/-- registerInteractions: clear the map, register every default interaction
whose enable value is not literally false, then the custom interactions. -/
def registerInteractions (s : RIState) : RIState :=
  let s := { s with interactions := [] }
  let regs := (getDefaultInteractions s.env).filter (fun p => p.2 != some false)
  let keys := regs.foldl (fun acc p => mapSet p.1 acc) s.interactions
  let keys := s.env.interactionOptions.customInteractionKeys.foldl
    (fun acc k => mapSet k acc) keys
  { s with interactions := keys }

/-- window.addEventListener: adding an identical listener again is a
no-op. -/
def addListener (r : ListenerRef) (l : List ListenerRef) : List ListenerRef :=
  if l.contains r then l else l ++ [r]

/-- The constructor: register the event controller and the interactions,
then listen for visibilitychange with onTriggerInteractionsResetEffect. -/
def construct (env : Env) : RIState :=
  let s : RIState := { env := env }
  let s := { s with eventControllerActive := true }
  let s := registerInteractions s
  { s with visibilityListeners :=
      addListener ListenerRef.triggerInteractionsResetEffect s.visibilityListeners }

/-- destroy: clear the interactions map, the intercept set and the event
controller, cancel the hover timer, reset the state, and remove the
visibilitychange listener (the identical function reference). -/
def destroy (s : RIState) : RIState :=
  let s := { s with interactions := [] }
  let s := { s with intercepts := [] }
  let s := addEffect Effect.clearEventController { s with eventControllerActive := false }
  let s := clearHoverTimer s
  let s := resetState s
  { s with visibilityListeners :=
      s.visibilityListeners.filter (fun r => r != ListenerRef.triggerInteractionsResetEffect) }

/-- onTriggerInteractionsResetEffect: invoke reset() on every registered
interaction handler. -/
def onTriggerInteractionsResetEffect (s : RIState) : RIState :=
  addEffects (s.interactions.map (fun k => Effect.interactionHandlerReset k)) s

/-- Run one registered window listener. -/
def runListener : ListenerRef → RIState → RIState
  | ListenerRef.triggerInteractionsResetEffect, s => onTriggerInteractionsResetEffect s

/-- Dispatch a visibilitychange event to every registered listener. -/
def dispatchVisibilityChange (s : RIState) : RIState :=
  s.visibilityListeners.foldl (fun acc r => runListener r acc) s

/-- The cell data carried by a column-cell click event (valueField, raw
data record, row index).  Record values may themselves be undefined. -/
structure ColCellData where
  valueField : String
  data : Option (List (String × Option Int)) := none
  rowIndex : Option Int := none
deriving DecidableEq

/-- A COL_CELL_CLICK event as seen by ColumnTextClick: whether its target
is link-field text, and the cell data of its append info.  Modelled from
the spec: isLinkFieldText and getCellAppendInfo live in BaseEvent, which is
not under src/. -/
structure ColCellClickEvent where
  targetIsLinkFieldText : Bool
  cellData : Option ColCellData := none
deriving DecidableEq

/-- Object.assign(base, rec): entries of rec overwrite entries of base. -/
def objAssign (base rec : List (String × Option Int)) : List (String × Option Int) :=
  base.filter (fun p => (rec.find? (fun q => q.1 == p.1)).isNone) ++ rec

/-- The GLOBAL_LINK_FIELD_JUMP emission. -/
inductive JumpEffect where
  | emitLinkFieldJump (field : String) (record : List (String × Option Int))
deriving DecidableEq

/-- The ColumnTextClick COL_CELL_CLICK handler: emit GLOBAL_LINK_FIELD_JUMP
when the target is link-field text, with the valueField and
Object.assign({ rowIndex }, data).  Destructuring an undefined cellData
throws, modelled as none. -/
def columnTextClickHandler (ev : ColCellClickEvent) : Option (List JumpEffect) :=
  if ev.targetIsLinkFieldText then
    match ev.cellData with
    | none => none
    | some cd =>
        some [JumpEffect.emitLinkFieldJump cd.valueField
          (objAssign [("rowIndex", cd.rowIndex)] (cd.data.getD []))]
  else some []

/-- The facet configuration of handleLayoutHook; the layout callback is
modelled by its presence, the call by the argument record below. -/
structure SpreadsheetFacetCfg where
  spreadsheetId : String
  layout : Option Unit := none
deriving DecidableEq

/-- The arguments of a performed layout callback invocation. -/
structure LayoutHookCall where
  spreadsheetId : String
  rowNodeId : String
  colNodeId : String
deriving DecidableEq

/-- handleLayoutHook: invoke facetCfg.layout(facetCfg.spreadsheet, rowNode,
colNode) when the config and its layout callback are defined. -/
def handleLayoutHook (facetCfg : Option SpreadsheetFacetCfg) (rowNode colNode : Node) :
    Option LayoutHookCall :=
  let layout := facetCfg.bind (fun cfg => cfg.layout)
  match layout, facetCfg with
  | some _, some cfg =>
      some { spreadsheetId := cfg.spreadsheetId,
             rowNodeId := rowNode.id, colNodeId := colNode.id }
  | _, _ => none

/-- Modelled from the spec words of claim C7: the record described as the
cell data's data extended with the cell data's rowIndex, so that the
rowIndex binding is the one added on top of data. -/
def specClaimedRecord (cd : ColCellData) : List (String × Option Int) :=
  objAssign (cd.data.getD []) [("rowIndex", cd.rowIndex)]

/-- A cell whose meta is valid and already recorded as selected, used to
evaluate changeCell on the deselection path. -/
def cexCell : Cell :=
  { meta := some { id := "a", x := some 0 }, cellType := CellType.dataCell }

/-- An interaction state in which cexCell is the single selected cell. -/
def cexState : RIState :=
  { store := some
      { stateName := some InteractionStateName.selected,
        cells := some [{ id := "a" }] } }

/-- changeCell options selecting cexCell with the defaults. -/
def cexOpts : ChangeCellOptions := { cell := some cexCell }

/-- The cell data of the C7 counterexample: its data record already
contains a rowIndex key that differs from the cell's rowIndex. -/
def cexColCellData : ColCellData :=
  { valueField := "f", data := some [("rowIndex", some 5)], rowIndex := some 3 }

/-- A link-field column click event carrying cexColCellData. -/
def cexClickEvent : ColCellClickEvent :=
  { targetIsLinkFieldText := true, cellData := some cexColCellData }

/-- Membership after one Set.add. -/
theorem memSetAdd (l : List InterceptType) (a t : InterceptType) :
    t ∈ setAdd l a ↔ t ∈ l ∨ t = a := by
  by_cases h : a ∈ l
  · simp only [setAdd, if_pos h]
    exact ⟨Or.inl, fun hh => hh.elim id (fun e => e ▸ h)⟩
  · simp [setAdd, if_neg h]

/-- Membership after folding Set.add over a list of added elements. -/
theorem memFoldlSetAdd (L : List InterceptType) (acc : List InterceptType) (t : InterceptType) :
    t ∈ L.foldl setAdd acc ↔ t ∈ acc ∨ t ∈ L := by
  induction L generalizing acc with
  | nil => simp
  | cons a L ih => simp [List.foldl_cons, ih, memSetAdd, List.mem_cons, or_assoc]

/-- Membership after folding Set.delete over a list of removed elements. -/
theorem memFoldlDelete (L : List InterceptType) (acc : List InterceptType) (t : InterceptType) :
    t ∈ L.foldl (fun l a => l.filter (fun u => u != a)) acc ↔ t ∈ acc ∧ t ∉ L := by
  induction L generalizing acc with
  | nil => simp
  | cons a L ih =>
    simp [List.foldl_cons, ih, List.mem_filter, List.mem_cons, and_assoc]

/-- Claim C2: addIntercepts adds exactly the given intercept types,
removeIntercepts removes exactly the given ones, and hasIntercepts is true
iff at least one queried type is in the set; hasIntercepts of the empty
list is always false. -/
theorem interceptsSpecC2 (s : RIState) (L L2 : List InterceptType) :
    (∀ t, t ∈ (addIntercepts L s).intercepts ↔ t ∈ s.intercepts ∨ t ∈ L) ∧
    (∀ t, t ∈ (removeIntercepts L s).intercepts ↔ t ∈ s.intercepts ∧ t ∉ L) ∧
    (hasIntercepts L2 s = true ↔ ∃ t, t ∈ L2 ∧ t ∈ s.intercepts) ∧
    hasIntercepts [] s = false := by
  refine ⟨fun t => ?_, fun t => ?_, ?_, rfl⟩
  · simpa [addIntercepts] using memFoldlSetAdd L s.intercepts t
  · simpa [removeIntercepts] using memFoldlDelete L s.intercepts t
  · simp [hasIntercepts, List.any_eq_true]

/-- Claim C5: isSelectedState holds exactly in one of the five selected
state names, and isSelectedCell holds exactly when additionally the cell's
meta id occurs among the recorded cells of the current state. -/
theorem selectedStateSpecC5 (s : RIState) (c : Cell) :
    (isSelectedState s = true ↔
      ((getState s).stateName = some InteractionStateName.selected ∨
       (getState s).stateName = some InteractionStateName.allSelected ∨
       (getState s).stateName = some InteractionStateName.rowCellBrushSelected ∨
       (getState s).stateName = some InteractionStateName.colCellBrushSelected ∨
       (getState s).stateName = some InteractionStateName.dataCellBrushSelected)) ∧
    (isSelectedCell c s = true ↔
      (isSelectedState s = true ∧ ∃ m, m ∈ getCells none s ∧ metaId c = some m.id)) := by
  constructor
  · simp [isSelectedState, isStateOf]
  · simp only [isSelectedCell, Bool.and_eq_true, isActiveCell, List.find?_isSome]
    constructor
    · rintro ⟨h1, m, hm, he⟩
      exact ⟨h1, m, hm, by simpa using he⟩
    · rintro ⟨h1, m, hm, he⟩
      exact ⟨h1, m, hm, by simpa using he⟩

/-- Claim C9: getState falls back to the default state, resetState restores
it, getCells with no filter returns the stored cells unchanged, getCells
with a type filter keeps exactly the cells of those types in order, and
getInteractedCells always yields a list. -/
theorem stateDefaultingSpecC9 (s : RIState) (ts : List CellType) :
    (s.store = none → getState s = defaultState) ∧
    defaultState = { cells := some [], force := some false } ∧
    (resetState s).store = some defaultState ∧
    (∀ cs, (getState s).cells = some cs → getCells none s = cs) ∧
    getCells (some ts) s = ((getState s).cells.getD []).filter (fun m => ts.contains m.type) ∧
    getInteractedCells s = ((getState s).interactedCells.getD []) := by
  refine ⟨fun h => by simp [getState, h], rfl, rfl, fun cs h => by simp [getCells, h], rfl, rfl⟩

/-- Claim C10: handleLayoutHook invokes the layout callback with the
config's spreadsheet and the two nodes exactly when the facet config is
defined and has a layout callback, and otherwise does nothing. -/
theorem handleLayoutHookSpecC10 (facetCfg : Option SpreadsheetFacetCfg) (rowNode colNode : Node) :
    (∀ cfg, facetCfg = some cfg → cfg.layout ≠ none →
      handleLayoutHook facetCfg rowNode colNode =
        some { spreadsheetId := cfg.spreadsheetId,
               rowNodeId := rowNode.id, colNodeId := colNode.id }) ∧
    (facetCfg = none → handleLayoutHook facetCfg rowNode colNode = none) ∧
    (∀ cfg, facetCfg = some cfg → cfg.layout = none →
      handleLayoutHook facetCfg rowNode colNode = none) := by
  refine ⟨fun cfg hc hl => ?_, fun h => by simp [handleLayoutHook, h], fun cfg hc hl => ?_⟩
  · obtain ⟨u, hu⟩ := Option.ne_none_iff_exists.mp hl
    simp [handleLayoutHook, hc, hu.symm]
  · simp [handleLayoutHook, hc, hl]

/-- Witness for claim C10 at a concrete config with a layout callback. -/
theorem handleLayoutHookSpecC10Witness :
    handleLayoutHook (some { spreadsheetId := "sheet", layout := some () })
        { id := "r" } { id := "c" } =
      some { spreadsheetId := "sheet", rowNodeId := "r", colNodeId := "c" } :=
  (handleLayoutHookSpecC10 (some { spreadsheetId := "sheet", layout := some () })
    { id := "r" } { id := "c" }).1 _ rfl (by decide)

/-- Witness for claim C9 at a concrete empty store and a stored cell
list. -/
theorem stateDefaultingSpecC9Witness :
    getState { store := none } = defaultState ∧
    getCells none { store := some { cells := some [{ id := "w" }] } } = [{ id := "w" }] :=
  ⟨(stateDefaultingSpecC9 { store := none } []).1 rfl,
   (stateDefaultingSpecC9 { store := some { cells := some [{ id := "w" }] } } []).2.2.2.1
     [{ id := "w" }] rfl⟩

/-- Counterexample for claim C7: when the cell data's data record itself
contains a rowIndex key, Object.assign({ rowIndex }, record) lets the data
entry win, so the emitted record is not the data extended with the cell
data's rowIndex. -/
theorem columnTextClickCexC7 :
    columnTextClickHandler cexClickEvent =
      some [JumpEffect.emitLinkFieldJump "f" [("rowIndex", some 5)]] ∧
    specClaimedRecord cexColCellData = [("rowIndex", some 3)] ∧
    columnTextClickHandler cexClickEvent ≠
      some [JumpEffect.emitLinkFieldJump "f" (specClaimedRecord cexColCellData)] := by
  refine ⟨by decide, by decide, by decide⟩

/-- Claim C7 (amended): for a COL_CELL_CLICK event carrying cell data, the
GLOBAL_LINK_FIELD_JUMP event is emitted iff the target is link-field text,
and when emitted it carries the cell data's valueField and the record
obtained by overriding a rowIndex default with the data's entries (entries
of data take precedence over the cell data's rowIndex). -/
theorem columnTextClickSpecC7 (ev : ColCellClickEvent) (cd : ColCellData)
    (h : ev.cellData = some cd) :
    ((∃ es, columnTextClickHandler ev = some es ∧ es ≠ []) ↔
      ev.targetIsLinkFieldText = true) ∧
    (ev.targetIsLinkFieldText = true →
      columnTextClickHandler ev =
        some [JumpEffect.emitLinkFieldJump cd.valueField
          (objAssign [("rowIndex", cd.rowIndex)] (cd.data.getD []))]) ∧
    (ev.targetIsLinkFieldText = false → columnTextClickHandler ev = some []) := by
  cases hl : ev.targetIsLinkFieldText with
  | true =>
    refine ⟨?_, fun _ => by simp [columnTextClickHandler, hl, h], fun hf => by simp_all⟩
    simp [columnTextClickHandler, hl, h]
  | false =>
    refine ⟨?_, fun ht => by simp_all, fun _ => by simp [columnTextClickHandler, hl]⟩
    simp [columnTextClickHandler, hl]

/-- Witness for claim C7 at the concrete link-field click event. -/
theorem columnTextClickSpecC7Witness :
    columnTextClickHandler cexClickEvent =
      some [JumpEffect.emitLinkFieldJump cexColCellData.valueField
        (objAssign [("rowIndex", cexColCellData.rowIndex)] (cexColCellData.data.getD []))] :=
  (columnTextClickSpecC7 cexClickEvent cexColCellData rfl).2.1 rfl

/-- Claim C3: changeState called with an empty cell list and the SELECTED
state leaves the state untouched unless force is set, in which case it
recurses exactly once with UNSELECTED, and that recursion takes the
non-guard path at any fuel because the empty-cells guard only fires for
SELECTED. -/
theorem changeStateEmptySelectedSpecC3 (info : InteractionStateInfo) (s : RIState)
    (h1 : info.cells.getD [] = []) (h2 : info.stateName = some InteractionStateName.selected) :
    (info.force ≠ some true → changeState info s = s) ∧
    (info.force = some true →
      changeState info s =
        changeStateBody
          { cells := some [], stateName := some InteractionStateName.unselected } s) ∧
    (∀ n, changeStateGo (n + 1)
        { cells := some [], stateName := some InteractionStateName.unselected } s =
      changeStateBody
        { cells := some [], stateName := some InteractionStateName.unselected } s) := by
  refine ⟨fun hf => ?_, fun hf => ?_, fun n => by simp [changeStateGo]⟩
  · have hb : (info.force == some true) = false := by
      simpa using hf
    simp [changeState, changeStateGo, h1, h2, hb]
  · simp [changeState, changeStateGo, h1, h2, hf]

/-- Witness for claim C3 at a concrete forced empty SELECTED call. -/
theorem changeStateEmptySelectedSpecC3Witness :
    changeState
        { stateName := some InteractionStateName.selected, cells := some [],
          force := some true } {} =
      changeStateBody
        { cells := some [], stateName := some InteractionStateName.unselected } {} :=
  (changeStateEmptySelectedSpecC3
    { stateName := some InteractionStateName.selected, cells := some [], force := some true }
    {} rfl rfl).2.1 rfl

/-- Claim C8: the option-normalization getters send a boolean option to the
record with every flag equal to that boolean, an absent option to the
all-false record, and an options object to its fields defaulted to false,
so no flag of the result is ever undefined. -/
theorem optionNormalizationSpecC8 (s : RIState) :
    (∀ b, s.env.interactionOptions.brushSelection = some (Sum.inl b) →
      getBrushSelectionInfo s.env.interactionOptions.brushSelection =
        { dataCellBrushSelection := b, rowCellBrushSelection := b,
          colCellBrushSelection := b }) ∧
    (s.env.interactionOptions.brushSelection = none →
      getBrushSelectionInfo s.env.interactionOptions.brushSelection =
        { dataCellBrushSelection := false, rowCellBrushSelection := false,
          colCellBrushSelection := false }) ∧
    (∀ o, s.env.interactionOptions.brushSelection = some (Sum.inr o) →
      getBrushSelectionInfo s.env.interactionOptions.brushSelection =
        { dataCellBrushSelection := o.dataCell.getD false,
          rowCellBrushSelection := o.rowCell.getD false,
          colCellBrushSelection := o.colCell.getD false }) ∧
    (∀ b, s.env.interactionOptions.selectedCellHighlight = some (Sum.inl b) →
      getSelectedCellHighlight s =
        { rowHeader := b, colHeader := b, currentRow := b, currentCol := b }) ∧
    (s.env.interactionOptions.selectedCellHighlight = none →
      getSelectedCellHighlight s =
        { rowHeader := false, colHeader := false, currentRow := false, currentCol := false }) ∧
    (∀ o, s.env.interactionOptions.selectedCellHighlight = some (Sum.inr o) →
      getSelectedCellHighlight s =
        { rowHeader := o.rowHeader.getD false, colHeader := o.colHeader.getD false,
          currentRow := o.currentRow.getD false, currentCol := o.currentCol.getD false }) ∧
    (∀ b, s.env.interactionOptions.hoverHighlight = some (Sum.inl b) →
      getHoverHighlight s =
        { rowHeader := b, colHeader := b, currentRow := b, currentCol := b }) ∧
    (s.env.interactionOptions.hoverHighlight = none →
      getHoverHighlight s =
        { rowHeader := false, colHeader := false, currentRow := false, currentCol := false }) ∧
    (∀ o, s.env.interactionOptions.hoverHighlight = some (Sum.inr o) →
      getHoverHighlight s =
        { rowHeader := o.rowHeader.getD false, colHeader := o.colHeader.getD false,
          currentRow := o.currentRow.getD false, currentCol := o.currentCol.getD false }) ∧
    (∀ b, s.env.interactionOptions.brushSelection = some (Sum.inl b) →
      getBrushSelection s = { dataCell := b, rowCell := b, colCell := b }) ∧
    (s.env.interactionOptions.brushSelection = none →
      getBrushSelection s = { dataCell := false, rowCell := false, colCell := false }) ∧
    (∀ o, s.env.interactionOptions.brushSelection = some (Sum.inr o) →
      getBrushSelection s =
        { dataCell := o.dataCell.getD false, rowCell := o.rowCell.getD false,
          colCell := o.colCell.getD false }) := by
  refine ⟨fun b h => by simp [getBrushSelectionInfo, h],
          fun h => by simp [getBrushSelectionInfo, h],
          fun o h => by simp [getBrushSelectionInfo, h],
          fun b h => by simp [getSelectedCellHighlight, h],
          fun h => by simp [getSelectedCellHighlight, h],
          fun o h => by simp [getSelectedCellHighlight, h],
          fun b h => by simp [getHoverHighlight, h],
          fun h => by simp [getHoverHighlight, h],
          fun o h => by simp [getHoverHighlight, h],
          fun b h => by simp [getBrushSelection, h],
          fun h => by simp [getBrushSelection, h],
          fun o h => by simp [getBrushSelection, h]⟩

/-- Witness for claim C8 at a boolean brush-selection option and an absent
hover-highlight option. -/
theorem optionNormalizationSpecC8Witness :
    getBrushSelectionInfo
        (({ env := { interactionOptions := { brushSelection := some (Sum.inl true) } } } :
          RIState)).env.interactionOptions.brushSelection =
      { dataCellBrushSelection := true, rowCellBrushSelection := true,
        colCellBrushSelection := true } ∧
    getHoverHighlight ({} : RIState) =
      { rowHeader := false, colHeader := false, currentRow := false, currentCol := false } :=
  ⟨(optionNormalizationSpecC8
      { env := { interactionOptions := { brushSelection := some (Sum.inl true) } } }).1
      true rfl,
   (optionNormalizationSpecC8 {}).2.2.2.2.2.2.2.1 rfl⟩

@[simp] theorem addEffectEnv (e : Effect) (s : RIState) : (addEffect e s).env = s.env := rfl

@[simp] theorem addEffectStore (e : Effect) (s : RIState) : (addEffect e s).store = s.store := rfl

@[simp] theorem addEffectIntercepts (e : Effect) (s : RIState) :
    (addEffect e s).intercepts = s.intercepts := rfl

@[simp] theorem addEffectEffects (e : Effect) (s : RIState) :
    (addEffect e s).effects = s.effects ++ [e] := rfl

@[simp] theorem addEffectsEnv (es : List Effect) (s : RIState) : (addEffects es s).env = s.env := rfl

@[simp] theorem addEffectsStore (es : List Effect) (s : RIState) :
    (addEffects es s).store = s.store := rfl

@[simp] theorem addEffectsIntercepts (es : List Effect) (s : RIState) :
    (addEffects es s).intercepts = s.intercepts := rfl

@[simp] theorem addEffectsEffects (es : List Effect) (s : RIState) :
    (addEffects es s).effects = s.effects ++ es := rfl

@[simp] theorem setStateStore (info : InteractionStateInfo) (s : RIState) :
    (setState info s).store = some info := rfl

@[simp] theorem setStateEnv (info : InteractionStateInfo) (s : RIState) :
    (setState info s).env = s.env := rfl

@[simp] theorem setStateIntercepts (info : InteractionStateInfo) (s : RIState) :
    (setState info s).intercepts = s.intercepts := rfl

@[simp] theorem setStateEffects (info : InteractionStateInfo) (s : RIState) :
    (setState info s).effects = s.effects := rfl

@[simp] theorem resetStateStore (s : RIState) : (resetState s).store = some defaultState := rfl

@[simp] theorem resetStateEnv (s : RIState) : (resetState s).env = s.env := rfl

@[simp] theorem resetStateIntercepts (s : RIState) :
    (resetState s).intercepts = s.intercepts := rfl

@[simp] theorem resetStateEffects (s : RIState) : (resetState s).effects = s.effects := rfl

@[simp] theorem drawEnv (s : RIState) : (draw s).env = s.env := rfl

@[simp] theorem drawStore (s : RIState) : (draw s).store = s.store := rfl

@[simp] theorem drawIntercepts (s : RIState) : (draw s).intercepts = s.intercepts := rfl

@[simp] theorem updateCellsEnv (cs : List Cell) (s : RIState) :
    (updateCells cs s).env = s.env := rfl

@[simp] theorem updateCellsStore (cs : List Cell) (s : RIState) :
    (updateCells cs s).store = s.store := rfl

@[simp] theorem updateCellsIntercepts (cs : List Cell) (s : RIState) :
    (updateCells cs s).intercepts = s.intercepts := rfl

@[simp] theorem updateCellsEffects (cs : List Cell) (s : RIState) :
    (updateCells cs s).effects = s.effects ++ cs.map (fun c => Effect.updateCell (metaId c)) := rfl

@[simp] theorem updateAllDataCellsEnv (s : RIState) : (updateAllDataCells s).env = s.env := rfl

@[simp] theorem updateAllDataCellsStore (s : RIState) :
    (updateAllDataCells s).store = s.store := rfl

@[simp] theorem updateAllDataCellsIntercepts (s : RIState) :
    (updateAllDataCells s).intercepts = s.intercepts := rfl

@[simp] theorem clearStyleIndependentEnv (s : RIState) :
    (clearStyleIndependent s).env = s.env := by
  unfold clearStyleIndependent; split <;> rfl

@[simp] theorem clearStyleIndependentStore (s : RIState) :
    (clearStyleIndependent s).store = s.store := by
  unfold clearStyleIndependent; split <;> rfl

@[simp] theorem clearStyleIndependentIntercepts (s : RIState) :
    (clearStyleIndependent s).intercepts = s.intercepts := by
  unfold clearStyleIndependent; split <;> rfl

@[simp] theorem clearStateEnv (s : RIState) : (clearState s).env = s.env := by
  by_cases h : (getCells none s).isEmpty <;>
    simp [clearState, stateControllerClearState, h]

@[simp] theorem clearStateIntercepts (s : RIState) :
    (clearState s).intercepts = s.intercepts := by
  by_cases h : (getCells none s).isEmpty <;>
    simp [clearState, stateControllerClearState, h]

@[simp] theorem runUpdateActionEnv (a : UpdateCellsAction) (s : RIState) :
    (runUpdateAction a s).env = s.env := by cases a <;> rfl

@[simp] theorem runUpdateActionStore (a : UpdateCellsAction) (s : RIState) :
    (runUpdateAction a s).store = s.store := by cases a <;> rfl

@[simp] theorem runUpdateActionIntercepts (a : UpdateCellsAction) (s : RIState) :
    (runUpdateAction a s).intercepts = s.intercepts := by cases a <;> rfl

theorem foldlRunUpdateActionEnv (acts : List UpdateCellsAction) (s : RIState) :
    (acts.foldl (fun acc a => runUpdateAction a acc) s).env = s.env := by
  induction acts generalizing s with
  | nil => rfl
  | cons a l ih => rw [List.foldl_cons, ih, runUpdateActionEnv]

theorem foldlRunUpdateActionStore (acts : List UpdateCellsAction) (s : RIState) :
    (acts.foldl (fun acc a => runUpdateAction a acc) s).store = s.store := by
  induction acts generalizing s with
  | nil => rfl
  | cons a l ih => rw [List.foldl_cons, ih, runUpdateActionStore]

theorem foldlRunUpdateActionIntercepts (acts : List UpdateCellsAction) (s : RIState) :
    (acts.foldl (fun acc a => runUpdateAction a acc) s).intercepts = s.intercepts := by
  induction acts generalizing s with
  | nil => rfl
  | cons a l ih => rw [List.foldl_cons, ih, runUpdateActionIntercepts]

theorem changeStateBodyStore (info : InteractionStateInfo) (s : RIState) :
    (changeStateBody info s).store = some info := by
  unfold changeStateBody
  cases h : info.onUpdateCells with
  | none => simp [h]
  | some acts => simp [h, foldlRunUpdateActionStore]

theorem changeStateBodyEnv (info : InteractionStateInfo) (s : RIState) :
    (changeStateBody info s).env = s.env := by
  unfold changeStateBody
  cases h : info.onUpdateCells with
  | none => simp [h, apply_ite RIState.env]
  | some acts => simp [h, foldlRunUpdateActionEnv, apply_ite RIState.env]

theorem changeStateBodyIntercepts (info : InteractionStateInfo) (s : RIState) :
    (changeStateBody info s).intercepts = s.intercepts := by
  unfold changeStateBody
  cases h : info.onUpdateCells with
  | none => simp [h, apply_ite RIState.intercepts]
  | some acts => simp [h, foldlRunUpdateActionIntercepts, apply_ite RIState.intercepts]

/-- changeState on an ALL_SELECTED request takes the non-guard path. -/
theorem changeStateAllSelectedEq (s : RIState) :
    changeState { stateName := some InteractionStateName.allSelected } s =
      changeStateBody { stateName := some InteractionStateName.allSelected } s := by
  simp [changeState, changeStateGo]

/-- Claim C4: after selectAll the state is ALL_SELECTED (hence also a
selected state), the HOVER intercept is present, and update() was invoked
on every cell returned by the facet. -/
theorem selectAllSpecC4 (s : RIState) :
    isAllSelectedState (selectAll s) = true ∧
    isSelectedState (selectAll s) = true ∧
    hasIntercepts [InterceptType.hover] (selectAll s) = true ∧
    ∀ c, c ∈ s.env.allCells → Effect.updateCell (metaId c) ∈ (selectAll s).effects := by
  have hstore : (selectAll s).store =
      some { stateName := some InteractionStateName.allSelected } := by
    simp [selectAll, addIntercepts, changeStateAllSelectedEq, changeStateBodyStore]
  have hint : (selectAll s).intercepts = setAdd s.intercepts InterceptType.hover := by
    simp [selectAll, addIntercepts, changeStateAllSelectedEq, changeStateBodyIntercepts,
      List.foldl_cons, List.foldl_nil]
  have henv : (selectAll s).env = s.env := by
    simp [selectAll, addIntercepts, changeStateAllSelectedEq, changeStateBodyEnv]
  refine ⟨?_, ?_, ?_, ?_⟩
  · simp [isAllSelectedState, isStateOf, getState, hstore]
  · simp [isSelectedState, isStateOf, getState, hstore]
  · have hmem : InterceptType.hover ∈ (selectAll s).intercepts := by
      rw [hint]
      exact (memSetAdd _ _ _).mpr (Or.inr rfl)
    simpa [hasIntercepts] using hmem
  · intro c hc
    have heq : (selectAll s).effects =
        (addIntercepts [InterceptType.hover]
            (changeState { stateName := some InteractionStateName.allSelected } s)).effects ++
          (s.env.allCells).map (fun c => Effect.updateCell (metaId c)) := by
      simp [selectAll, addIntercepts, changeStateAllSelectedEq, changeStateBodyEnv]
    rw [heq]
    exact List.mem_append_right _ (List.mem_map_of_mem _ hc)

/-- Witness for claim C4 at a concrete one-cell facet. -/
theorem selectAllSpecC4Witness :
    Effect.updateCell (some "w4") ∈
      (selectAll { env := { allCells := [{ meta := some { id := "w4" } }] } }).effects :=
  (selectAllSpecC4 { env := { allCells := [{ meta := some { id := "w4" } }] } }).2.2.2
    { meta := some { id := "w4" } } (by decide)

/-- The constructor registers exactly the reset-effect listener. -/
theorem constructListeners (env : Env) :
    (construct env).visibilityListeners = [ListenerRef.triggerInteractionsResetEffect] := rfl

/-- Claim C6: the constructor registers a visibilitychange listener that
resets every registered interaction handler; destroy clears the interaction
map, the intercepts, the event controller, the hover timer and the state,
removes that same listener, and afterwards a visibilitychange event has no
effect. -/
theorem visibilityLifecycleSpecC6 (env : Env) :
    (construct env).visibilityListeners = [ListenerRef.triggerInteractionsResetEffect] ∧
    (dispatchVisibilityChange (construct env)).effects =
      (construct env).effects ++
        (construct env).interactions.map Effect.interactionHandlerReset ∧
    (destroy (construct env)).interactions = [] ∧
    (destroy (construct env)).intercepts = [] ∧
    (destroy (construct env)).eventControllerActive = false ∧
    Effect.clearEventController ∈ (destroy (construct env)).effects ∧
    Effect.clearHoverTimeout ∈ (destroy (construct env)).effects ∧
    (destroy (construct env)).store = some defaultState ∧
    (destroy (construct env)).visibilityListeners = [] ∧
    dispatchVisibilityChange (destroy (construct env)) = destroy (construct env) := by
  have hdl : (destroy (construct env)).visibilityListeners = [] := by
    simp [destroy, clearHoverTimer, constructListeners]
  refine ⟨constructListeners env, ?_, rfl, rfl, rfl, ?_, ?_, rfl, hdl, ?_⟩
  · simp [dispatchVisibilityChange, constructListeners, runListener,
      onTriggerInteractionsResetEffect]
  · simp [destroy, clearHoverTimer, resetState, addEffect]
  · simp [destroy, clearHoverTimer, resetState, addEffect]
  · simp [dispatchVisibilityChange, hdl]

/-- Claim C1 (amended): for every cell with a valid meta, changeCell emits
GLOBAL_SELECTED with the current active cells; it returns true on the
selection path, while on the path where nothing remains selected it calls
reset and still emits GLOBAL_SELECTED, returning undefined. -/
theorem changeCellSpecC1 (opts : ChangeCellOptions) (s : RIState) (c : Cell) (m : Node)
    (hc : opts.cell = some c) (hm : c.meta = some m) (hx : m.x ≠ none) :
    (∃ ids, Effect.emitGlobalSelected ids ∈ (changeCell opts s).1.effects) ∧
    ((changeCell opts s).2 = some true ∨
      ((changeCell opts s).2 = none ∧
        (changeCell opts s).1 =
          addEffect
            (Effect.emitGlobalSelected
              (activeCellIds (reset (addIntercepts [InterceptType.hover] s))))
            (reset (addIntercepts [InterceptType.hover] s)))) := by
  have hxb : (m.x == none) = false := by simpa using hx
  simp only [changeCell, hc, hm, hxb, Bool.false_eq_true, if_false]
  repeat' split
  all_goals
    first
      | exact ⟨⟨_, List.mem_append_right _ (List.mem_singleton_self _)⟩, Or.inr ⟨rfl, rfl⟩⟩
      | exact ⟨⟨_, List.mem_append_right _ (List.mem_singleton_self _)⟩, Or.inl rfl⟩

/-- Witness for claim C1 on a fresh state: selecting a valid cell emits
GLOBAL_SELECTED. -/
theorem changeCellSpecC1Witness :
    ∃ ids, Effect.emitGlobalSelected ids ∈ (changeCell cexOpts ({} : RIState)).1.effects :=
  (changeCellSpecC1 cexOpts {} cexCell { id := "a", x := some 0 } rfl rfl (by decide)).1

/-- Counterexample for claim C1: a cell with a valid meta that is already
the single selected cell makes changeCell take the reset path and return
undefined rather than true. -/
theorem changeCellCexC1 :
    cexOpts.cell = some cexCell ∧
    cexCell.meta = some { id := "a", x := some 0 } ∧
    (({ id := "a", x := some 0 } : Node)).x ≠ none ∧
    (changeCell cexOpts cexState).2 = none := by
  refine ⟨rfl, rfl, by decide, by decide⟩

end S2
